import Mathlib

/-!
Verification of the synchronization, locking and backup core of the
vakantieroosters repository, via a shallow embedding in Lean of
drive_store.py (RemoteSync), lockmgr.py (EditLock), backupmgr.py
(BackupManager) and the save handler of streamlit_app.py.

Stateful Python code is embedded as explicit state passing; filesystem and
network effects are recorded as explicit request or action lists; fallible
steps whose outcome depends on the environment take an outcome oracle as an
argument.
-/

namespace DriveStore

/-- The remote host state visible to drive_store.py: the stored bytes of the
database file and the server-assigned head revision token. -/
structure DriveHost where
  headRevisionId : String
  content : List Nat
  deriving DecidableEq

/-- A request issued by drive_store.py to the Drive service: either the
metadata query for the current head revision, or the media update carrying
the uploaded bytes. -/
inductive DriveReq where
  | getHead : DriveReq
  | updateMedia : List Nat → DriveReq
  deriving DecidableEq

/-- Effect of one request on the host. A media update replaces the stored
bytes and makes the host assign a fresh revision token `newRev`; the
metadata query leaves the host unchanged. -/
def applyReq (newRev : String) (host : DriveHost) : DriveReq → DriveHost
  | DriveReq.getHead => host
  | DriveReq.updateMedia c => ⟨newRev, c⟩

/-- Effect of a request sequence on the host. -/
def applyReqs (newRev : String) (host : DriveHost) (reqs : List DriveReq) : DriveHost :=
  reqs.foldl (applyReq newRev) host

/-- Embedding of `upload_db(local_path, expect_head_rev)` in drive_store.py.
It first queries the current head revision; if that differs from
`expect_head_rev` it raises a RuntimeError (modelled as `Except.error` with
the message from the source) without issuing the update; otherwise it
performs the media update with the local bytes. Returns the outcome
together with the list of requests issued to the host. -/
def upload_db (host : DriveHost) (localContent : List Nat) (expect_head_rev : String) :
    Except String (List Nat) × List DriveReq :=
  if host.headRevisionId ≠ expect_head_rev then
    (Except.error "De database is intussen elders gewijzigd. Herlaad en probeer opnieuw.",
     [DriveReq.getHead])
  else
    (Except.ok localContent, [DriveReq.getHead, DriveReq.updateMedia localContent])

/-- Claim C1: if the current revision of the host differs from
`expect_head_rev`, `upload_db` raises the conflict error, issues no update
request, and the stored file on the host is unchanged; if the revisions are
equal, the binary upload is performed. The conflict is signalled distinctly
(an exception, never the ordinary return) from performing the upload. -/
theorem upload_db_conflict_check (host : DriveHost) (localContent : List Nat)
    (expect newRev : String) :
    (host.headRevisionId ≠ expect →
      (upload_db host localContent expect).1 =
        Except.error "De database is intussen elders gewijzigd. Herlaad en probeer opnieuw." ∧
      DriveReq.updateMedia localContent ∉ (upload_db host localContent expect).2 ∧
      applyReqs newRev host (upload_db host localContent expect).2 = host) ∧
    (host.headRevisionId = expect →
      (upload_db host localContent expect).1 = Except.ok localContent ∧
      (upload_db host localContent expect).2 =
        [DriveReq.getHead, DriveReq.updateMedia localContent] ∧
      applyReqs newRev host (upload_db host localContent expect).2 =
        ⟨newRev, localContent⟩) := by
  constructor
  · intro hne
    simp [upload_db, hne, applyReqs, applyReq]
  · intro heq
    simp [upload_db, heq, applyReqs, applyReq]

/-- Witness for C1 at concrete inputs: a host at revision r1; an upload
expecting r0 conflicts, an upload expecting r1 succeeds. -/
theorem upload_db_conflict_check_witness :
    (upload_db ⟨"r1", [0]⟩ [1] "r0").1 =
      Except.error "De database is intussen elders gewijzigd. Herlaad en probeer opnieuw." ∧
    applyReqs "r2" ⟨"r1", [0]⟩ (upload_db ⟨"r1", [0]⟩ [1] "r0").2 = ⟨"r1", [0]⟩ ∧
    (upload_db ⟨"r1", [0]⟩ [1] "r1").1 = Except.ok [1] :=
  ⟨((upload_db_conflict_check ⟨"r1", [0]⟩ [1] "r0" "r2").1 (by decide)).1,
   ((upload_db_conflict_check ⟨"r1", [0]⟩ [1] "r0" "r2").1 (by decide)).2.2,
   ((upload_db_conflict_check ⟨"r1", [0]⟩ [1] "r1" "r2").2 (by decide)).1⟩

/-- The in-process writer mutex timeout of drive_store.py: the literal 30 in
`_lock.acquire(timeout=30)`. -/
def exclusive_writer_timeout : Nat := 30

/-- Outcome of the body guarded by `exclusive_writer`: either a value, or a
raised exception. -/
inductive BodyOutcome (α ε : Type) where
  | ok : α → BodyOutcome α ε
  | raises : ε → BodyOutcome α ε
  deriving DecidableEq

/-- Result observed by a caller of `exclusive_writer`: the coordination
RuntimeError raised on acquisition timeout, an exception propagated from the
body, or the value of the body. -/
inductive EwResult (α ε : Type) where
  | timeoutError : String → EwResult α ε
  | bodyError : ε → EwResult α ε
  | success : α → EwResult α ε
  deriving DecidableEq

/-- Embedding of the `exclusive_writer` context manager in drive_store.py.
`waitNeeded` is the number of seconds until the process-local writer mutex
becomes free; `_lock.acquire(timeout=30)` obtains it exactly when that wait
fits in the 30-second bound. On failure it raises the coordination
RuntimeError without running the body; on success the body runs and the
finally block releases the mutex, also when the body raises. Returns the
result, whether the body ran, and whether this caller still holds the mutex
afterwards. -/
def exclusive_writer {α ε : Type} (waitNeeded : Nat) (body : BodyOutcome α ε) :
    EwResult α ε × Bool × Bool :=
  if waitNeeded ≤ exclusive_writer_timeout then
    match body with
    | BodyOutcome.ok a => (EwResult.success a, true, false)
    | BodyOutcome.raises e => (EwResult.bodyError e, true, false)
  else
    (EwResult.timeoutError "Kon geen schrijflock krijgen (time-out).", false, false)

/-- Claim C8: if the process-local writer mutex is not obtained within the
fixed 30-second bound, `exclusive_writer` raises a coordination error
without running the guarded body; if the mutex is obtained, the body runs
and the mutex is released on exit, including when the body raises. -/
theorem exclusive_writer_spec {α ε : Type} (waitNeeded : Nat) (body : BodyOutcome α ε) :
    (waitNeeded > exclusive_writer_timeout →
      (exclusive_writer waitNeeded body).1 =
        EwResult.timeoutError "Kon geen schrijflock krijgen (time-out)." ∧
      (exclusive_writer waitNeeded body).2.1 = false) ∧
    (waitNeeded ≤ exclusive_writer_timeout →
      (exclusive_writer waitNeeded body).2.1 = true ∧
      (exclusive_writer waitNeeded body).2.2 = false ∧
      (∀ a, body = BodyOutcome.ok a →
        (exclusive_writer waitNeeded body).1 = EwResult.success a) ∧
      (∀ e, body = BodyOutcome.raises e →
        (exclusive_writer waitNeeded body).1 = EwResult.bodyError e)) := by
  constructor
  · intro hgt
    have hnle : ¬ waitNeeded ≤ exclusive_writer_timeout := Nat.not_le.mpr hgt
    simp [exclusive_writer, hnle]
  · intro hle
    refine ⟨?_, ?_, ?_, ?_⟩
    · cases body <;> simp [exclusive_writer, hle]
    · cases body <;> simp [exclusive_writer, hle]
    · intro a ha
      subst ha
      simp [exclusive_writer, hle]
    · intro e he
      subst he
      simp [exclusive_writer, hle]

/-- Witness for C8 at concrete inputs: a 31-second wait times out without
running the body; a 5-second wait runs a raising body, propagates the
exception and leaves the mutex released. -/
theorem exclusive_writer_spec_witness :
    (exclusive_writer 31 (BodyOutcome.ok (α := Nat) (ε := String) 7)).1 =
      EwResult.timeoutError "Kon geen schrijflock krijgen (time-out)." ∧
    (exclusive_writer 5 (BodyOutcome.raises (α := Nat) (ε := String) "boom")).1 =
      EwResult.bodyError "boom" ∧
    (exclusive_writer 5 (BodyOutcome.raises (α := Nat) (ε := String) "boom")).2.2 = false :=
  ⟨((exclusive_writer_spec 31 (BodyOutcome.ok (α := Nat) (ε := String) 7)).1
      (by decide)).1,
   ((exclusive_writer_spec 5 (BodyOutcome.raises (α := Nat) (ε := String) "boom")).2
      (by decide)).2.2.2 "boom" rfl,
   ((exclusive_writer_spec 5 (BodyOutcome.raises (α := Nat) (ε := String) "boom")).2
      (by decide)).2.1⟩

end DriveStore

namespace StreamlitApp

open DriveStore

/-- The per-session state of streamlit_app.py relevant to synchronization:
`REMOTE_REV`, the head revision captured from the download metadata at
bootstrap, and the bytes of the local database file `LOCAL_DB`. -/
structure AppState where
  remoteRev : String
  localContent : List Nat
  deriving DecidableEq

/-- Embedding of `_bootstrap_db`: downloads the database from the host and
records the head revision from the returned metadata as `REMOTE_REV`. -/
def _bootstrap_db (host : DriveHost) : AppState :=
  ⟨host.headRevisionId, host.content⟩

/-- Embedding of the save-to-Drive button handler in streamlit_app.py: runs
`upload_db(LOCAL_DB, expect_head_rev=REMOTE_REV)` under `exclusive_writer`
and shows a success or error message. The returned metadata is discarded
and `REMOTE_REV` is never reassigned, so the app state is returned
unchanged in both branches. Returns the app state, the host after the
issued requests, and whether the success message was shown. -/
def save_to_drive (newRev : String) (app : AppState) (host : DriveHost) :
    AppState × DriveHost × Bool :=
  match upload_db host app.localContent app.remoteRev with
  | (Except.ok _, reqs) => (app, applyReqs newRev host reqs, true)
  | (Except.error _, reqs) => (app, applyReqs newRev host reqs, false)

/-- Claim C7: after a successful upload the locally tracked revision token is
not refreshed to the post-upload revision of the host: it still equals the
value observed at download time, so a second upload without an intervening
download compares against the pre-upload revision and conflicts once the
host has moved on to the new revision. -/
theorem remote_rev_not_refreshed (host : DriveHost) (newRev newRev2 : String)
    (hne : newRev ≠ host.headRevisionId) :
    (save_to_drive newRev (_bootstrap_db host) host).2.2 = true ∧
    (save_to_drive newRev (_bootstrap_db host) host).1.remoteRev = host.headRevisionId ∧
    (save_to_drive newRev (_bootstrap_db host) host).2.1.headRevisionId = newRev ∧
    (save_to_drive newRev2 (save_to_drive newRev (_bootstrap_db host) host).1
        (save_to_drive newRev (_bootstrap_db host) host).2.1).2.2 = false ∧
    (save_to_drive newRev2 (save_to_drive newRev (_bootstrap_db host) host).1
        (save_to_drive newRev (_bootstrap_db host) host).2.1).2.1 =
      (save_to_drive newRev (_bootstrap_db host) host).2.1 := by
  have h1 : save_to_drive newRev (_bootstrap_db host) host =
      (⟨host.headRevisionId, host.content⟩, ⟨newRev, host.content⟩, true) := by
    simp [save_to_drive, _bootstrap_db, upload_db, applyReqs, applyReq]
  have h2 : save_to_drive newRev2 (⟨host.headRevisionId, host.content⟩ : AppState)
      (⟨newRev, host.content⟩ : DriveHost) =
      (⟨host.headRevisionId, host.content⟩, ⟨newRev, host.content⟩, false) := by
    simp [save_to_drive, _bootstrap_db, upload_db, applyReqs, applyReq, hne]
  rw [h1]
  refine ⟨rfl, rfl, rfl, ?_, ?_⟩
  · rw [h2]
  · rw [h2]

/-- Witness for C7 at concrete inputs: a host at revision r0 whose update
assigns r1; the first save succeeds, the tracked revision stays r0, and a
second save without re-download conflicts. -/
theorem remote_rev_not_refreshed_witness :
    (save_to_drive "r1" (_bootstrap_db ⟨"r0", [2]⟩) ⟨"r0", [2]⟩).2.2 = true ∧
    (save_to_drive "r1" (_bootstrap_db ⟨"r0", [2]⟩) ⟨"r0", [2]⟩).1.remoteRev = "r0" ∧
    (save_to_drive "r2" (save_to_drive "r1" (_bootstrap_db ⟨"r0", [2]⟩) ⟨"r0", [2]⟩).1
        (save_to_drive "r1" (_bootstrap_db ⟨"r0", [2]⟩) ⟨"r0", [2]⟩).2.1).2.2 = false :=
  ⟨(remote_rev_not_refreshed ⟨"r0", [2]⟩ "r1" "r2" (by decide)).1,
   (remote_rev_not_refreshed ⟨"r0", [2]⟩ "r1" "r2" (by decide)).2.1,
   (remote_rev_not_refreshed ⟨"r0", [2]⟩ "r1" "r2" (by decide)).2.2.2.1⟩

end StreamlitApp

namespace LockMgr

/-- Prefix of a character list up to and including its last slash, the head
part computed by posixpath.dirname before trailing-slash stripping. -/
def headToLastSlash : List Char → List Char
  | [] => []
  | c :: rest =>
    if ('/' : Char) ∈ rest then c :: headToLastSlash rest
    else if c = '/' then [c]
    else []

/-- Embedding of os.path.dirname (posixpath): the prefix up to the last
slash, with trailing slashes stripped unless the prefix consists of slashes
only; a path without a slash has dirname empty. -/
def dirname (p : String) : String :=
  let head := headToLastSlash p.toList
  if head.any (fun c => c != '/') then
    String.mk (List.reverse (List.dropWhile (fun c => c == '/') head.reverse))
  else
    String.mk head

/-- Embedding of os.path.join (posixpath) on two components. -/
def joinPath (a b : String) : String :=
  if b.startsWith "/" then b
  else if a = "" || a.endsWith "/" then a ++ b
  else a ++ "/" ++ b

/-- The fixed sidecar lock filename of lockmgr.py. -/
def LOCK_FILENAME : String := "vakantierooster.lock"

/-- Embedding of `_lock_path_from_db_file`: empty for an empty database
path; otherwise the lock filename joined to the directory of the database
path, or empty when that directory is empty (a bare filename). -/
def _lock_path_from_db_file (db_path : String) : String :=
  if db_path = "" then ""
  else
    let folder := dirname db_path
    if folder ≠ "" then joinPath folder LOCK_FILENAME else ""

/-- A Python exception escaping a lockmgr.py call, such as an OSError from
makedirs, open, write or fsync. -/
inductive PyExc where
  | osError : PyExc
  deriving DecidableEq

/-- Outcome of a plain filesystem step: success, or an I/O error raising an
OSError. -/
inductive StepOutcome where
  | ok : StepOutcome
  | ioError : StepOutcome
  deriving DecidableEq

/-- Outcome of the non-blocking portalocker.lock step: success, or a
LockException (portalocker converts every flock failure, contention
included, into a LockException subclass). -/
inductive LockStepOutcome where
  | ok : LockStepOutcome
  | lockException : LockStepOutcome
  deriving DecidableEq

/-- Environment oracle for one `EditLock.acquire` call: the outcomes of the
makedirs step, the open step, the portalocker.lock step and the
seek/truncate/write/flush/fsync step. -/
structure AcquireEnv where
  makedirsStep : StepOutcome
  openStep : StepOutcome
  lockStep : LockStepOutcome
  writeStep : StepOutcome
  deriving DecidableEq

/-- A filesystem action performed by lockmgr.py, recorded for frame
reasoning: directory creation, opening (and thereby creating) the lock
file, and writing the editor record into it. -/
inductive FsAction where
  | makedirs : String → FsAction
  | openCreate : String → FsAction
  | writeRecord : String → FsAction
  deriving DecidableEq

/-- Embedding of `EditLock.acquire` in lockmgr.py, following the source
control flow exactly: an empty lock path returns True at once; the makedirs
call sits outside the try block, so its OSError propagates; inside the try
block only portalocker LockException is caught (yielding False), so an
OSError from open or from the write/fsync sequence also propagates.
Returns the call outcome and the successfully performed filesystem
actions. -/
def EditLock.acquire (lock_file_path : String) (env : AcquireEnv) :
    Except PyExc Bool × List FsAction :=
  if lock_file_path = "" then (Except.ok true, [])
  else
    match env.makedirsStep with
    | StepOutcome.ioError => (Except.error PyExc.osError, [])
    | StepOutcome.ok =>
      match env.openStep with
      | StepOutcome.ioError =>
          (Except.error PyExc.osError, [FsAction.makedirs (dirname lock_file_path)])
      | StepOutcome.ok =>
        match env.lockStep with
        | LockStepOutcome.lockException =>
            (Except.ok false,
             [FsAction.makedirs (dirname lock_file_path),
              FsAction.openCreate lock_file_path])
        | LockStepOutcome.ok =>
          match env.writeStep with
          | StepOutcome.ioError =>
              (Except.error PyExc.osError,
               [FsAction.makedirs (dirname lock_file_path),
                FsAction.openCreate lock_file_path])
          | StepOutcome.ok =>
              (Except.ok true,
               [FsAction.makedirs (dirname lock_file_path),
                FsAction.openCreate lock_file_path,
                FsAction.writeRecord lock_file_path])

/-- An action performed by `EditLock.release`: releasing and closing the
held handle, and attempting removal of the sidecar file. -/
inductive ReleaseAction where
  | unlockClose : ReleaseAction
  | removeFile : String → ReleaseAction
  deriving DecidableEq

/-- Embedding of `EditLock.release`: a no-op when no lock path is
configured; otherwise it unlocks and closes the handle when one is held and
attempts to remove the sidecar file (failures swallowed). Returns the
attempted actions. -/
def EditLock.release (lock_file_path : String) (holdingHandle : Bool) : List ReleaseAction :=
  if lock_file_path = "" then []
  else
    (if holdingHandle then [ReleaseAction.unlockClose] else []) ++
      [ReleaseAction.removeFile lock_file_path]

/-- A lock record as read back from the sidecar file; fields may be absent
from the parsed JSON object. -/
structure LockRecordJson where
  host : Option String
  user : Option String
  deriving DecidableEq

/-- Embedding of `EditLock.holder`: empty when no lock path is configured or
the file does not exist; empty when reading or parsing fails; otherwise the
record formatted as host backslash user with question marks for missing
fields. -/
def EditLock.holder (lock_file_path : String) (fileExists : Bool)
    (parsed : Option LockRecordJson) : String :=
  if lock_file_path = "" then ""
  else if fileExists = false then ""
  else
    match parsed with
    | none => ""
    | some r => (r.host.getD "?") ++ "\\" ++ (r.user.getD "?")

/-- Embedding of `EditLock.is_locked`: False when no lock path is
configured; otherwise it probes with a non-blocking exclusive lock attempt
and reports True exactly when that attempt raises a LockException. -/
def EditLock.is_locked (lock_file_path : String) (probe : LockStepOutcome) : Bool :=
  if lock_file_path = "" then false
  else
    match probe with
    | LockStepOutcome.ok => false
    | LockStepOutcome.lockException => true

/-- A character list without a slash has an empty head part. -/
theorem headToLastSlash_eq_nil (cs : List Char) (h : ('/' : Char) ∉ cs) :
    headToLastSlash cs = [] := by
  induction cs with
  | nil => rfl
  | cons c rest ih =>
    rw [List.mem_cons] at h
    push_neg at h
    unfold headToLastSlash
    rw [if_neg h.2, if_neg (fun hc => h.1 hc.symm)]

/-- A path without a slash has an empty dirname. -/
theorem dirname_eq_empty_of_no_slash (p : String) (h : ('/' : Char) ∉ p.toList) :
    dirname p = "" := by
  unfold dirname
  rw [headToLastSlash_eq_nil p.toList h]
  rfl

/-- Counterexample to claim C2 as stated: with a configured lock path, an
I/O failure in the directory-creation step makes `EditLock.acquire` raise
an OSError (the makedirs call sits outside the try block), so the caller
does not observe a boolean result. -/
theorem acquire_raises_counterexample :
    (EditLock.acquire "dir/vakantierooster.lock"
        ⟨StepOutcome.ioError, StepOutcome.ok, LockStepOutcome.ok, StepOutcome.ok⟩).1 =
      Except.error PyExc.osError ∧
    ∀ b : Bool,
      (EditLock.acquire "dir/vakantierooster.lock"
          ⟨StepOutcome.ioError, StepOutcome.ok, LockStepOutcome.ok, StepOutcome.ok⟩).1 ≠
        Except.ok b := by
  constructor
  · rfl
  · intro b hb
    exact Except.noConfusion hb

/-- Claim C2 amended: `EditLock.acquire` returns True at once when no lock
path is configured; with a configured path it returns False exactly when
the non-blocking lock attempt raises a LockException (contention), returns
True exactly when every step succeeds, and an I/O failure in directory
creation, file open, or the write/flush/fsync sequence is not absorbed: it
propagates as an exception rather than being reported as False. -/
theorem acquire_characterization (p : String) (env : AcquireEnv) :
    (p = "" → EditLock.acquire p env = (Except.ok true, [])) ∧
    (p ≠ "" →
      ((EditLock.acquire p env).1 = Except.ok false ↔
        env.makedirsStep = StepOutcome.ok ∧ env.openStep = StepOutcome.ok ∧
          env.lockStep = LockStepOutcome.lockException) ∧
      ((EditLock.acquire p env).1 = Except.ok true ↔
        env.makedirsStep = StepOutcome.ok ∧ env.openStep = StepOutcome.ok ∧
          env.lockStep = LockStepOutcome.ok ∧ env.writeStep = StepOutcome.ok) ∧
      ((EditLock.acquire p env).1 = Except.error PyExc.osError ↔
        env.makedirsStep = StepOutcome.ioError ∨
          (env.makedirsStep = StepOutcome.ok ∧ env.openStep = StepOutcome.ioError) ∨
          (env.makedirsStep = StepOutcome.ok ∧ env.openStep = StepOutcome.ok ∧
            env.lockStep = LockStepOutcome.ok ∧ env.writeStep = StepOutcome.ioError))) := by
  constructor
  · intro hp
    subst hp
    rfl
  · intro hp
    obtain ⟨m, o, l, w⟩ := env
    cases m <;> cases o <;> cases l <;> cases w <;>
      simp [EditLock.acquire, hp]

/-- Witness for the amended C2 at concrete inputs: with a configured path,
contention yields False, full success yields True, and a write failure
yields the propagated OSError. -/
theorem acquire_characterization_witness :
    (EditLock.acquire "dir/vakantierooster.lock"
        ⟨StepOutcome.ok, StepOutcome.ok, LockStepOutcome.lockException, StepOutcome.ok⟩).1 =
      Except.ok false ∧
    (EditLock.acquire "dir/vakantierooster.lock"
        ⟨StepOutcome.ok, StepOutcome.ok, LockStepOutcome.ok, StepOutcome.ok⟩).1 =
      Except.ok true ∧
    (EditLock.acquire "dir/vakantierooster.lock"
        ⟨StepOutcome.ok, StepOutcome.ok, LockStepOutcome.ok, StepOutcome.ioError⟩).1 =
      Except.error PyExc.osError :=
  ⟨((acquire_characterization "dir/vakantierooster.lock"
      ⟨StepOutcome.ok, StepOutcome.ok, LockStepOutcome.lockException, StepOutcome.ok⟩).2
      (by decide)).1.mpr ⟨rfl, rfl, rfl⟩,
   ((acquire_characterization "dir/vakantierooster.lock"
      ⟨StepOutcome.ok, StepOutcome.ok, LockStepOutcome.ok, StepOutcome.ok⟩).2
      (by decide)).2.1.mpr ⟨rfl, rfl, rfl, rfl⟩,
   ((acquire_characterization "dir/vakantierooster.lock"
      ⟨StepOutcome.ok, StepOutcome.ok, LockStepOutcome.ok, StepOutcome.ioError⟩).2
      (by decide)).2.2.mpr (Or.inr (Or.inr ⟨rfl, rfl, rfl, rfl⟩))⟩

/-- Claim C10: for a database path that is a bare filename without a
directory component (and for the empty path) the derived lock path is
empty and locking is silently disabled: acquire returns True performing no
filesystem action, is_locked returns False, holder returns the empty
string, and release does nothing. -/
theorem bare_filename_disables_locking (db_path : String)
    (h : ('/' : Char) ∉ db_path.toList) :
    _lock_path_from_db_file db_path = "" ∧
    (∀ env, EditLock.acquire (_lock_path_from_db_file db_path) env = (Except.ok true, [])) ∧
    (∀ probe, EditLock.is_locked (_lock_path_from_db_file db_path) probe = false) ∧
    (∀ fe parsed, EditLock.holder (_lock_path_from_db_file db_path) fe parsed = "") ∧
    (∀ hh, EditLock.release (_lock_path_from_db_file db_path) hh = []) := by
  have hlp : _lock_path_from_db_file db_path = "" := by
    unfold _lock_path_from_db_file
    by_cases hdb : db_path = ""
    · rw [if_pos hdb]
    · rw [if_neg hdb]
      simp only [dirname_eq_empty_of_no_slash db_path h]
      rfl
  refine ⟨hlp, ?_, ?_, ?_, ?_⟩
  · intro env
    rw [hlp]
    rfl
  · intro probe
    rw [hlp]
    rfl
  · intro fe parsed
    rw [hlp]
    rfl
  · intro hh
    rw [hlp]
    rfl

/-- Witness for C10 at the concrete bare filename vakantierooster.db. -/
theorem bare_filename_disables_locking_witness :
    _lock_path_from_db_file "vakantierooster.db" = "" ∧
    EditLock.acquire (_lock_path_from_db_file "vakantierooster.db")
        ⟨StepOutcome.ioError, StepOutcome.ioError, LockStepOutcome.lockException,
          StepOutcome.ioError⟩ = (Except.ok true, []) ∧
    EditLock.is_locked (_lock_path_from_db_file "vakantierooster.db")
        LockStepOutcome.lockException = false ∧
    EditLock.holder (_lock_path_from_db_file "vakantierooster.db") true
        (some ⟨some "h", some "u"⟩) = "" ∧
    EditLock.release (_lock_path_from_db_file "vakantierooster.db") true = [] :=
  ⟨(bare_filename_disables_locking "vakantierooster.db" (by decide)).1,
   (bare_filename_disables_locking "vakantierooster.db" (by decide)).2.1
     ⟨StepOutcome.ioError, StepOutcome.ioError, LockStepOutcome.lockException,
       StepOutcome.ioError⟩,
   (bare_filename_disables_locking "vakantierooster.db" (by decide)).2.2.1
     LockStepOutcome.lockException,
   (bare_filename_disables_locking "vakantierooster.db" (by decide)).2.2.2.1 true
     (some ⟨some "h", some "u"⟩),
   (bare_filename_disables_locking "vakantierooster.db" (by decide)).2.2.2.2 true⟩

end LockMgr

namespace BackupMgr

/-- A file in the backup subdirectory: its name and its filesystem
modification time in seconds. -/
structure BackupFile where
  name : String
  mtime : Int
  deriving DecidableEq

/-- The mutable state of one BackupManager instance together with its backup
subdirectory: the files present there and the `_last_run` timestamp of the
last successful backup (0 at construction). -/
structure BackupState where
  files : List BackupFile
  last_run : Int
  deriving DecidableEq

/-- The immutable policy of a BackupManager: `retention_days` (default 14)
and `min_interval_sec` (default 120). -/
structure BackupPolicy where
  retention_days : Nat
  min_interval_sec : Nat
  deriving DecidableEq

/-- The filter applied by `_rotate` to a filename: the lowercased name ends
with the extension .db (ASCII lowercasing, which covers the names the
manager writes). -/
def nameEndsWithDb (name : String) : Bool :=
  List.isSuffixOf ".db".toList (name.toList.map Char.toLower)

/-- Embedding of `_should_run`: the elapsed time since `_last_run` is at
least `min_interval_sec`. -/
def _should_run (p : BackupPolicy) (last_run now : Int) : Bool :=
  decide ((p.min_interval_sec : Int) ≤ now - last_run)

/-- Embedding of `_backup_filename` relative to the backup subdirectory:
the fixed prefix, the second-resolution timestamp rendered as `ts`, and the
.db extension. -/
def _backup_filename (ts : String) : String :=
  "vakantierooster_" ++ ts ++ ".db"

/-- The rotation cutoff computed by `_rotate`: now minus retention_days
(converted to seconds). -/
def rotationCutoff (p : BackupPolicy) (now : Int) : Int :=
  now - (p.retention_days : Int) * 86400

/-- Embedding of `_rotate`: every file of the backup subdirectory whose
lowercased name ends in .db and whose modification time is strictly older
than the cutoff is removed; all other files remain. -/
def _rotate (p : BackupPolicy) (now : Int) (files : List BackupFile) : List BackupFile :=
  files.filter (fun f => !(nameEndsWithDb f.name && decide (f.mtime < rotationCutoff p now)))

/-- Outcome oracle for one `run_backup_now` call: where, if anywhere, the
try block raises. The destination database file is created by the sqlite
connect call on the destination path, so a failure of the copy step happens
with the destination file already present. -/
inductive RunStep where
  | mkdirFail : RunStep
  | srcConnectFail : RunStep
  | dstConnectFail : RunStep
  | backupCopyFail : RunStep
  | ok : RunStep
  deriving DecidableEq

/-- Embedding of `run_backup_now`: on success it creates the destination
file (modification time now), rotates, records the last-run time and
returns the destination name; on any exception it returns None, and no
cleanup of an already created destination file is performed. File names
are taken relative to the backup subdirectory. This definition collapses
the several clock samples of one call (the strftime for the filename, the
modification time the filesystem stamps on the destination file, the
datetime.now() inside `_rotate` and the final time.time()) into the single
instant `now`, rendered as the timestamp string `ts`; it is adequate only
for properties that do not turn on the clock advancing within one call.
`run_backup_now_skew` below keeps the write instant and the rotation
instant distinct, as the source does. -/
def run_backup_now (p : BackupPolicy) (now : Int) (ts : String) (step : RunStep)
    (st : BackupState) : Option String × BackupState :=
  match step with
  | RunStep.mkdirFail => (none, st)
  | RunStep.srcConnectFail => (none, st)
  | RunStep.dstConnectFail => (none, st)
  | RunStep.backupCopyFail =>
      (none, ⟨st.files ++ [⟨_backup_filename ts, now⟩], st.last_run⟩)
  | RunStep.ok =>
      (some (_backup_filename ts),
       ⟨_rotate p now (st.files ++ [⟨_backup_filename ts, now⟩]), now⟩)

/-- Refinement of `run_backup_now` that keeps the two clock samples of the
source distinct: the modification time of the destination file is fixed
when the engine copy finishes writing it (the instant `now`, also rendered
as `ts` in the filename), while `_rotate` computes its cutoff from a fresh
datetime.now() sampled only after that (the instant `nowR`, with
now ≤ nowR in any execution, and now < nowR whenever the clock advanced
between the write and the rotation scan — at the microsecond precision of
the source comparison this holds in essentially every real execution).
Instants are abstract clock readings; the conversion constant of
`rotationCutoff` gives them second resolution, but the comparisons below
only use their order. `run_backup_now` above is the degenerate case
nowR = now. -/
def run_backup_now_skew (p : BackupPolicy) (now nowR : Int) (ts : String) (step : RunStep)
    (st : BackupState) : Option String × BackupState :=
  match step with
  | RunStep.mkdirFail => (none, st)
  | RunStep.srcConnectFail => (none, st)
  | RunStep.dstConnectFail => (none, st)
  | RunStep.backupCopyFail =>
      (none, ⟨st.files ++ [⟨_backup_filename ts, now⟩], st.last_run⟩)
  | RunStep.ok =>
      (some (_backup_filename ts),
       ⟨_rotate p nowR (st.files ++ [⟨_backup_filename ts, now⟩]), nowR⟩)

/-- Embedding of `maybe_backup_after_commit`: a no-op unless `_should_run`
allows it, in which case it runs `run_backup_now`. The Python method
discards the return value; it is exposed here to observe whether a
snapshot was produced. -/
def maybe_backup_after_commit (p : BackupPolicy) (now : Int) (ts : String) (step : RunStep)
    (st : BackupState) : Option String × BackupState :=
  if _should_run p st.last_run now then run_backup_now p now ts step st
  else (none, st)

/-- Membership in the rotated file list: a file survives `_rotate` exactly
when it was present and it is not both a .db file and strictly older than
the cutoff. -/
theorem mem_rotate_iff (p : BackupPolicy) (now : Int) (files : List BackupFile)
    (f : BackupFile) :
    f ∈ _rotate p now files ↔
      f ∈ files ∧ ¬(nameEndsWithDb f.name = true ∧ f.mtime < rotationCutoff p now) := by
  simp only [_rotate, List.mem_filter, Bool.not_eq_true', Bool.and_eq_false_iff,
    decide_eq_false_iff_not, Bool.not_eq_true, not_and]
  constructor
  · rintro ⟨hmem, hcase⟩
    refine ⟨hmem, ?_⟩
    intro hends hlt
    rcases hcase with hfalse | hnlt
    · rw [hends] at hfalse
      exact Bool.noConfusion hfalse
    · exact hnlt hlt
  · rintro ⟨hmem, hng⟩
    refine ⟨hmem, ?_⟩
    by_cases hends : nameEndsWithDb f.name = true
    · exact Or.inr (hng hends)
    · exact Or.inl (by simpa using hends)

/-- With coinciding clock samples the refined model agrees with
`run_backup_now`. -/
theorem run_backup_now_skew_diag (p : BackupPolicy) (now : Int) (ts : String)
    (step : RunStep) (st : BackupState) :
    run_backup_now_skew p now now ts step st = run_backup_now p now ts step st := by
  cases step <;> rfl

/-- Every filename produced by `_backup_filename` passes the .db filter of
`_rotate`. -/
theorem nameEndsWithDb_backup_filename (ts : String) :
    nameEndsWithDb (_backup_filename ts) = true := by
  unfold nameEndsWithDb _backup_filename
  have h1 : (("vakantierooster_" ++ ts) ++ ".db").toList =
      ("vakantierooster_" ++ ts).toList ++ ".db".toList := rfl
  rw [h1, List.map_append]
  have h2 : List.map Char.toLower ".db".toList = ".db".toList := rfl
  rw [h2]
  exact List.isSuffixOf_iff_suffix.mpr (List.suffix_append _ _)

/-- From the words of the spec, for comparison with the code: the snapshot
naming convention is the fixed prefix plus a timestamp, with the .db
extension. -/
def matchesSnapshotConvention (name : String) : Bool :=
  List.isPrefixOf "vakantierooster_".toList name.toList &&
    List.isSuffixOf ".db".toList name.toList

/-- Counterexample to claim C3 as stated: a failure of the engine copy step
happens after the sqlite connect call has already created the destination
file, and `run_backup_now` performs no cleanup, so the call returns None
while the destination file is present in the backup directory. -/
theorem run_backup_failure_partial_file_counterexample :
    (run_backup_now ⟨14, 120⟩ 100 "20240101_000000" RunStep.backupCopyFail ⟨[], 0⟩).1 =
      none ∧
    (⟨"vakantierooster_20240101_000000.db", 100⟩ : BackupFile) ∈
      (run_backup_now ⟨14, 120⟩ 100 "20240101_000000" RunStep.backupCopyFail ⟨[], 0⟩).2.files := by
  exact ⟨rfl, by decide⟩

/-- Claim C3 amended: a failed `run_backup_now` returns None; when the
failure occurs before the destination file is created (directory creation
or source connect failure, or a destination connect failure that creates
nothing) the backup directory is unchanged, but when the failure occurs
during the engine copy the already created destination file remains: no
cleanup of the destination is performed. -/
theorem run_backup_failure_no_cleanup (p : BackupPolicy) (now : Int) (ts : String)
    (st : BackupState) :
    run_backup_now p now ts RunStep.mkdirFail st = (none, st) ∧
    run_backup_now p now ts RunStep.srcConnectFail st = (none, st) ∧
    run_backup_now p now ts RunStep.dstConnectFail st = (none, st) ∧
    run_backup_now p now ts RunStep.backupCopyFail st =
      (none, ⟨st.files ++ [⟨_backup_filename ts, now⟩], st.last_run⟩) :=
  ⟨rfl, rfl, rfl, rfl⟩

/-- Counterexample to claim C4 as stated: x.db does not match the snapshot
naming convention (it lacks the fixed prefix), yet `_rotate` deletes it
when it is older than the cutoff, because the code filters only on the .db
extension. Here retention is 14 days, now is 0 and the file is 15 days
old. -/
theorem rotate_nonconvention_deleted_counterexample :
    matchesSnapshotConvention "x.db" = false ∧
    _rotate ⟨14, 120⟩ 0 [⟨"x.db", -1296000⟩] = [] := by
  exact ⟨rfl, by decide⟩

/-- Claim C4 amended: `_rotate` deletes exactly the files whose lowercased
name ends in .db and whose modification time is strictly older than now
minus retentionDays, retaining every file younger than the cutoff; the
snapshot prefix is not checked, so any .db file is subject to deletion,
while files without the .db extension are never deleted. With
retentionDays = 14 a .db file of modification time now minus 15 days is
removed and one of now minus 13 days is retained. -/
theorem rotate_filters_by_db_suffix (p : BackupPolicy) (now : Int)
    (files : List BackupFile) (f : BackupFile) :
    (f ∈ _rotate p now files ↔
      f ∈ files ∧ ¬(nameEndsWithDb f.name = true ∧ f.mtime < rotationCutoff p now)) ∧
    (nameEndsWithDb f.name = false → (f ∈ _rotate p now files ↔ f ∈ files)) ∧
    _rotate ⟨14, 120⟩ 0 [⟨"vakantierooster_a.db", -1296000⟩] = [] ∧
    _rotate ⟨14, 120⟩ 0 [⟨"vakantierooster_b.db", -1123200⟩] =
      [⟨"vakantierooster_b.db", -1123200⟩] := by
  refine ⟨mem_rotate_iff p now files f, ?_, by decide, by decide⟩
  intro hends
  rw [mem_rotate_iff]
  constructor
  · exact fun h => h.1
  · intro h
    refine ⟨h, ?_⟩
    rintro ⟨he, -⟩
    rw [hends] at he
    exact Bool.noConfusion he

/-- Witness for the amended C4 at a concrete input: a very old file without
the .db extension survives `_rotate`. -/
theorem rotate_filters_by_db_suffix_witness :
    (⟨"notes.txt", -99999999⟩ : BackupFile) ∈
      _rotate ⟨14, 120⟩ 0 [⟨"notes.txt", -99999999⟩] :=
  ((rotate_filters_by_db_suffix ⟨14, 120⟩ 0 [⟨"notes.txt", -99999999⟩]
      ⟨"notes.txt", -99999999⟩).2.1 (by decide)).mpr (by decide)

/-- Claim C5: `maybe_backup_after_commit` performs a snapshot exactly when
the elapsed time since the last successful snapshot is at least
min_interval_sec, and otherwise is a no-op; with minIntervalSeconds = 120,
two calls spaced 10 seconds apart produce exactly one snapshot and two
calls spaced 130 seconds apart produce two. -/
theorem maybe_backup_rate_limit :
    (∀ (p : BackupPolicy) (now : Int) (ts : String) (st : BackupState),
      ((maybe_backup_after_commit p now ts RunStep.ok st).1 ≠ none ↔
        (p.min_interval_sec : Int) ≤ now - st.last_run) ∧
      (¬ (p.min_interval_sec : Int) ≤ now - st.last_run →
        maybe_backup_after_commit p now ts RunStep.ok st = (none, st))) ∧
    (maybe_backup_after_commit ⟨14, 120⟩ 1000 "t1" RunStep.ok ⟨[], 0⟩).1 =
      some "vakantierooster_t1.db" ∧
    (maybe_backup_after_commit ⟨14, 120⟩ 1010 "t2" RunStep.ok
        (maybe_backup_after_commit ⟨14, 120⟩ 1000 "t1" RunStep.ok ⟨[], 0⟩).2).1 = none ∧
    (maybe_backup_after_commit ⟨14, 120⟩ 1130 "t2" RunStep.ok
        (maybe_backup_after_commit ⟨14, 120⟩ 1000 "t1" RunStep.ok ⟨[], 0⟩).2).1 =
      some "vakantierooster_t2.db" := by
  refine ⟨?_, by decide, by decide, by decide⟩
  intro p now ts st
  by_cases hc : (p.min_interval_sec : Int) ≤ now - st.last_run
  · have hs : _should_run p st.last_run now = true := decide_eq_true hc
    have hm : maybe_backup_after_commit p now ts RunStep.ok st =
        run_backup_now p now ts RunStep.ok st := by
      simp [maybe_backup_after_commit, hs]
    refine ⟨?_, fun hnc => absurd hc hnc⟩
    rw [hm]
    exact iff_of_true (by simp [run_backup_now]) hc
  · have hs : _should_run p st.last_run now = false := decide_eq_false hc
    have hm : maybe_backup_after_commit p now ts RunStep.ok st = (none, st) := by
      simp [maybe_backup_after_commit, hs]
    refine ⟨?_, fun _ => hm⟩
    rw [hm]
    exact iff_of_false (by simp) hc

/-- Witness for C5 at a concrete input: 5 seconds after construction, with
minIntervalSeconds = 120, the call is a no-op. -/
theorem maybe_backup_rate_limit_witness :
    maybe_backup_after_commit ⟨14, 120⟩ 5 "t" RunStep.ok ⟨[], 0⟩ =
      (none, (⟨[], 0⟩ : BackupState)) :=
  (maybe_backup_rate_limit.1 ⟨14, 120⟩ 5 "t" (⟨[], 0⟩ : BackupState)).2 (by decide)

/-- Counterexample to claim C6 as stated: with retentionDays = 0 the
rotation performed by a `run_backup_now` call deletes the snapshot file
the same call just created. The destination file is written at instant
100 and `_rotate` samples its cutoff clock at instant 101 (the scan
follows the write, so its clock reading is later), hence the strict
mtime < cutoff comparison holds for the fresh snapshot and it is removed:
the call returns the destination name while the backup directory is left
empty. -/
theorem zero_retention_self_delete_counterexample :
    (run_backup_now_skew ⟨0, 0⟩ 100 101 "20240101_120000" RunStep.ok ⟨[], 0⟩).1 =
      some "vakantierooster_20240101_120000.db" ∧
    (run_backup_now_skew ⟨0, 0⟩ 100 101 "20240101_120000" RunStep.ok ⟨[], 0⟩).2.files =
      [] :=
  ⟨rfl, by decide⟩

/-- Claim C6 amended: under the policy retentionDays = 0 and
minIntervalSeconds = 0 every commit whose clock is past the last success
triggers a snapshot, and the rotation performed by that snapshot deletes
every .db file strictly older than its cutoff clock sample — including
the snapshot just created by the same call whenever that sample is later
than the instant the destination file was written, which holds in every
real execution since the rotate scan follows the write; the just-created
snapshot survives only in the boundary case of coinciding clock
samples. -/
theorem zero_policy_rotation_self_deletion (st : BackupState) (now nowR : Int)
    (ts : String) :
    (st.last_run ≤ now → _should_run ⟨0, 0⟩ st.last_run now = true) ∧
    (run_backup_now_skew ⟨0, 0⟩ now nowR ts RunStep.ok st).1 =
      some (_backup_filename ts) ∧
    (∀ f, f ∈ st.files → nameEndsWithDb f.name = true → f.mtime < nowR →
      f ∉ (run_backup_now_skew ⟨0, 0⟩ now nowR ts RunStep.ok st).2.files) ∧
    (now < nowR →
      (⟨_backup_filename ts, now⟩ : BackupFile) ∉
        (run_backup_now_skew ⟨0, 0⟩ now nowR ts RunStep.ok st).2.files) ∧
    (nowR = now →
      (⟨_backup_filename ts, now⟩ : BackupFile) ∈
        (run_backup_now_skew ⟨0, 0⟩ now nowR ts RunStep.ok st).2.files) := by
  have hcut : rotationCutoff ⟨0, 0⟩ nowR = nowR := by
    simp [rotationCutoff]
  have hfiles : (run_backup_now_skew ⟨0, 0⟩ now nowR ts RunStep.ok st).2.files =
      _rotate ⟨0, 0⟩ nowR (st.files ++ [⟨_backup_filename ts, now⟩]) := rfl
  refine ⟨?_, rfl, ?_, ?_, ?_⟩
  · intro h
    simp only [_should_run, decide_eq_true_eq, Nat.cast_zero]
    omega
  · intro f hf hends hmt hmem
    rw [hfiles, mem_rotate_iff, hcut] at hmem
    exact hmem.2 ⟨hends, hmt⟩
  · intro hlt hmem
    rw [hfiles, mem_rotate_iff, hcut] at hmem
    exact hmem.2 ⟨nameEndsWithDb_backup_filename ts, hlt⟩
  · intro heq
    rw [hfiles, mem_rotate_iff, hcut]
    subst heq
    refine ⟨by simp, ?_⟩
    rintro ⟨-, hlt⟩
    exact lt_irrefl _ hlt

/-- Witness for the amended C6 at concrete inputs: at instant 10 (last
success at 0) the throttle allows the snapshot; a rotation sampling its
clock at instant 11 removes both the snapshot from instant 5 and the one
just created at instant 10, while a rotation sampling at exactly instant
10 keeps the fresh snapshot. -/
theorem zero_policy_rotation_self_deletion_witness :
    _should_run ⟨0, 0⟩ 0 10 = true ∧
    (run_backup_now_skew ⟨0, 0⟩ 10 11 "b" RunStep.ok
        ⟨[⟨"vakantierooster_a.db", 5⟩], 0⟩).1 = some "vakantierooster_b.db" ∧
    (⟨"vakantierooster_a.db", 5⟩ : BackupFile) ∉
      (run_backup_now_skew ⟨0, 0⟩ 10 11 "b" RunStep.ok
        ⟨[⟨"vakantierooster_a.db", 5⟩], 0⟩).2.files ∧
    (⟨"vakantierooster_b.db", 10⟩ : BackupFile) ∉
      (run_backup_now_skew ⟨0, 0⟩ 10 11 "b" RunStep.ok
        ⟨[⟨"vakantierooster_a.db", 5⟩], 0⟩).2.files ∧
    (⟨"vakantierooster_b.db", 10⟩ : BackupFile) ∈
      (run_backup_now_skew ⟨0, 0⟩ 10 10 "b" RunStep.ok
        ⟨[⟨"vakantierooster_a.db", 5⟩], 0⟩).2.files :=
  ⟨(zero_policy_rotation_self_deletion ⟨[⟨"vakantierooster_a.db", 5⟩], 0⟩ 10 11 "b").1
      (by decide),
   (zero_policy_rotation_self_deletion ⟨[⟨"vakantierooster_a.db", 5⟩], 0⟩ 10 11 "b").2.1,
   (zero_policy_rotation_self_deletion ⟨[⟨"vakantierooster_a.db", 5⟩], 0⟩ 10 11 "b").2.2.1
      ⟨"vakantierooster_a.db", 5⟩ (by decide) (by decide) (by decide),
   (zero_policy_rotation_self_deletion ⟨[⟨"vakantierooster_a.db", 5⟩], 0⟩ 10 11 "b").2.2.2.1
      (by decide),
   (zero_policy_rotation_self_deletion ⟨[⟨"vakantierooster_a.db", 5⟩], 0⟩ 10 10 "b").2.2.2.2
      rfl⟩

/-- Claim C9: a failed `run_backup_now` leaves `_last_run` unchanged, so a
failed backup never resets the rate-limit window: the next
`maybe_backup_after_commit` still measures elapsed time from the last
successful snapshot. -/
theorem failed_backup_preserves_last_run (p : BackupPolicy) (now : Int) (ts : String)
    (step : RunStep) (st : BackupState)
    (h : (run_backup_now p now ts step st).1 = none) :
    (run_backup_now p now ts step st).2.last_run = st.last_run ∧
    ∀ now2 : Int, _should_run p (run_backup_now p now ts step st).2.last_run now2 =
      _should_run p st.last_run now2 := by
  cases step
  case ok => simp [run_backup_now] at h
  all_goals exact ⟨rfl, fun now2 => rfl⟩

/-- Witness for C9 at a concrete input: a source connect failure at time 50
leaves `_last_run` at 7 and the rate-limit comparison unchanged. -/
theorem failed_backup_preserves_last_run_witness :
    (run_backup_now ⟨14, 120⟩ 50 "t" RunStep.srcConnectFail ⟨[], 7⟩).2.last_run = 7 ∧
    _should_run ⟨14, 120⟩
        (run_backup_now ⟨14, 120⟩ 50 "t" RunStep.srcConnectFail ⟨[], 7⟩).2.last_run 100 =
      _should_run ⟨14, 120⟩ 7 100 :=
  ⟨(failed_backup_preserves_last_run ⟨14, 120⟩ 50 "t" RunStep.srcConnectFail ⟨[], 7⟩ rfl).1,
   (failed_backup_preserves_last_run ⟨14, 120⟩ 50 "t" RunStep.srcConnectFail ⟨[], 7⟩ rfl).2 100⟩

end BackupMgr
